import Mathlib

/-!
Verification of the mbed OS boot layer (`rtos/mbed_boot.c`).

This file shallowly embeds the boot-time memory layout resolver
(`mbed_set_stack_heap`), the toolchain entry adapters (GCC
`software_init_hook`, ARMC `__rt_entry`, MICROLIB `_main_init`, IAR
`__iar_program_start`), the kernel bootstrap (`mbed_start_main`), the libc
retargeting shim (mutex attribute setup, `__retarget_lock_init`,
`__retarget_lock_close` and friends), and the newlib per-thread
reentrancy accessor (`__user_perthread_libspace`) from the C source, and
proves the specified properties about them.

Machine integers (`uint32_t` and pointer arithmetic) are modelled as `Nat`
with explicit reduction modulo `2 ^ 32`; the compile-time `#ifdef`
configuration (explicit interrupt-stack placement, uVisor feature flags)
is modelled by explicit parameters; external collaborators with
out-of-code results (`osThreadNew`, `malloc`, `__low_level_init`,
`uvisor_lib_init`) are modelled by parameters carrying their result.
-/

/-! ## Machine arithmetic: `uint32_t` as `Nat` modulo `2 ^ 32` -/

def u32Mod : Nat := 4294967296

/-- Addition of two `uint32_t` values (each `< u32Mod`), with wraparound. -/
def add32 (a b : Nat) : Nat := (a + b) % u32Mod

/-- Subtraction of two `uint32_t` values (each `< u32Mod`), with wraparound:
`(a + 2^32 - b) % 2^32` is C unsigned subtraction for `a, b < 2^32`. -/
def sub32 (a b : Nat) : Nat := (a + u32Mod - b) % u32Mod

theorem add32_eq_of_lt {a b : Nat} (h : a + b < u32Mod) : add32 a b = a + b :=
  Nat.mod_eq_of_lt h

theorem sub32_eq_of_le {a b : Nat} (hba : b ≤ a) (ha : a < u32Mod) :
    sub32 a b = a - b := by
  unfold sub32
  have h1 : a + u32Mod - b = (a - b) + u32Mod := by omega
  rw [h1, Nat.add_mod_right]
  exact Nat.mod_eq_of_lt (by omega)

/-! ## Memory Layout Resolver: `mbed_set_stack_heap`

C source (`rtos/mbed_boot.c`, lines 256-275):

```
void mbed_set_stack_heap(void) {
    unsigned char *free_start = HEAP_START;
    uint32_t free_size = HEAP_SIZE;
#ifdef ISR_STACK_START
    mbed_stack_isr_size = ISR_STACK_SIZE;
    mbed_stack_isr_start = ISR_STACK_START;
#else
    mbed_stack_isr_size = ISR_STACK_SIZE < free_size ? ISR_STACK_SIZE : free_size;
    mbed_stack_isr_start = free_start + free_size - mbed_stack_isr_size;
    free_size -= mbed_stack_isr_size;
#endif
    mbed_heap_size = free_size;
    mbed_heap_start = free_start;
}
```

The link-time constants `HEAP_START`, `HEAP_SIZE`, `ISR_STACK_SIZE` become
parameters; the compile-time `#ifdef ISR_STACK_START` override becomes an
`Option (Nat × Nat)` parameter carrying `(ISR_STACK_START, ISR_STACK_SIZE)`.
-/

structure MemLayout where
  mbed_heap_start : Nat
  mbed_heap_size : Nat
  mbed_stack_isr_start : Nat
  mbed_stack_isr_size : Nat
deriving DecidableEq, Repr

def mbed_set_stack_heap (HEAP_START HEAP_SIZE ISR_STACK_SIZE : Nat)
    (isrOverride : Option (Nat × Nat)) : MemLayout :=
  let free_start := HEAP_START
  let free_size := HEAP_SIZE
  match isrOverride with
  | some (ovStart, ovSize) =>
    { mbed_heap_start := free_start
      mbed_heap_size := free_size
      mbed_stack_isr_start := ovStart
      mbed_stack_isr_size := ovSize }
  | none =>
    let isr_size := if ISR_STACK_SIZE < free_size then ISR_STACK_SIZE else free_size
    let isr_start := sub32 (add32 free_start free_size) isr_size
    let free_size2 := sub32 free_size isr_size
    { mbed_heap_start := free_start
      mbed_heap_size := free_size2
      mbed_stack_isr_start := isr_start
      mbed_stack_isr_size := isr_size }

/-- C1: for a valid configuration (the free span fits in the 32-bit address
space and the requested interrupt-stack size is at most the free-span size,
no explicit interrupt-stack placement override), `mbed_set_stack_heap`
splits the free span exactly: the heap starts at the free-span base, the
interrupt stack starts right after the heap, and the two sizes sum to the
free-span size (so the regions are disjoint and cover the span). -/
theorem mbed_set_stack_heap_partitions_free_span
    (hs fs isrCfg : Nat) (hspan : hs + fs < u32Mod) (hcfg : isrCfg ≤ fs) :
    (mbed_set_stack_heap hs fs isrCfg none).mbed_heap_start = hs ∧
    (mbed_set_stack_heap hs fs isrCfg none).mbed_stack_isr_start =
      (mbed_set_stack_heap hs fs isrCfg none).mbed_heap_start +
      (mbed_set_stack_heap hs fs isrCfg none).mbed_heap_size ∧
    (mbed_set_stack_heap hs fs isrCfg none).mbed_heap_size +
      (mbed_set_stack_heap hs fs isrCfg none).mbed_stack_isr_size = fs := by
  have hisr : (if isrCfg < fs then isrCfg else fs) = isrCfg := by
    rcases Nat.lt_or_ge isrCfg fs with h | h
    · simp [h]
    · have : isrCfg = fs := Nat.le_antisymm hcfg h
      simp [this]
  have hadd : add32 hs fs = hs + fs := add32_eq_of_lt hspan
  have hsub1 : sub32 (hs + fs) isrCfg = hs + fs - isrCfg :=
    sub32_eq_of_le (by omega) hspan
  have hsub2 : sub32 fs isrCfg = fs - isrCfg :=
    sub32_eq_of_le hcfg (by omega)
  refine ⟨rfl, ?_, ?_⟩
  · show sub32 (add32 hs fs) (if isrCfg < fs then isrCfg else fs) =
      hs + sub32 fs (if isrCfg < fs then isrCfg else fs)
    rw [hisr, hadd, hsub1, hsub2]
    omega
  · show sub32 fs (if isrCfg < fs then isrCfg else fs) +
      (if isrCfg < fs then isrCfg else fs) = fs
    rw [hisr, hsub2]
    omega

/-- Witness for C1 at the spec scenario: free span base `0x2000`, size
`0xE000`, default interrupt-stack size `0x400`. -/
theorem mbed_set_stack_heap_partitions_free_span_witness :
    (mbed_set_stack_heap 8192 57344 1024 none).mbed_heap_start = 8192 ∧
    (mbed_set_stack_heap 8192 57344 1024 none).mbed_stack_isr_start =
      (mbed_set_stack_heap 8192 57344 1024 none).mbed_heap_start +
      (mbed_set_stack_heap 8192 57344 1024 none).mbed_heap_size ∧
    (mbed_set_stack_heap 8192 57344 1024 none).mbed_heap_size +
      (mbed_set_stack_heap 8192 57344 1024 none).mbed_stack_isr_size = 57344 :=
  mbed_set_stack_heap_partitions_free_span 8192 57344 1024
    (by decide) (by decide)

/-- C2: when no explicit interrupt-stack placement override is given and the
requested interrupt-stack size strictly exceeds the free-span size,
`mbed_set_stack_heap` clamps the interrupt-stack size to the free-span size
and leaves a heap of size exactly 0: the `uint32_t` subtraction
`free_size -= mbed_stack_isr_size` never wraps around. -/
theorem mbed_set_stack_heap_oversize_clamp
    (hs fs isrCfg : Nat) (hcfg : fs < isrCfg) :
    (mbed_set_stack_heap hs fs isrCfg none).mbed_stack_isr_size = fs ∧
    (mbed_set_stack_heap hs fs isrCfg none).mbed_heap_size = 0 := by
  have hisr : (if isrCfg < fs then isrCfg else fs) = fs := by
    simp [Nat.not_lt.mpr (Nat.le_of_lt hcfg)]
  constructor
  · show (if isrCfg < fs then isrCfg else fs) = fs
    exact hisr
  · show sub32 fs (if isrCfg < fs then isrCfg else fs) = 0
    rw [hisr]
    unfold sub32
    simp [Nat.add_sub_cancel]

/-- Witness for C2: free span of size 100 with a requested interrupt-stack
size of 200 yields interrupt-stack size 100 and heap size 0. -/
theorem mbed_set_stack_heap_oversize_clamp_witness :
    (mbed_set_stack_heap 4096 100 200 none).mbed_stack_isr_size = 100 ∧
    (mbed_set_stack_heap 4096 100 200 none).mbed_heap_size = 0 :=
  mbed_set_stack_heap_oversize_clamp 4096 100 200 (by decide)

/-! ## Toolchain Entry Adapters: boot step traces

Each adapter's boot routine is embedded as the sequence of boot steps it
performs, in program order. Compile-time configuration becomes parameters:
`featureUvisor` and `uvisorSupported` model `FEATURE_UVISOR` and
`TARGET_UVISOR_SUPPORTED` (their conjunction guards skipping
`mbed_cpy_nvic`); `uvisorInitRet` models the return code of
`uvisor_lib_init` (nonzero triggers `mbed_die`); `lowLevelInitNeeded`
models the return flag of IAR `__low_level_init`. The ARMC adapter calls
`_platform_post_stackheap_init`, which per the boot diagram in the source
header invokes `osKernelInitialize`; it is recorded as the `osKernelInit`
step. -/

inductive BootEvent
  | user_setup_stackheap
  | set_stack_heap
  | cpy_nvic
  | sdk_init
  | osKernelInit
  | uvisor_lib_init
  | mbed_die
  | start_main
  | iar_init_core
  | iar_init_vfp
  | low_level_init
  | iar_data_init3
deriving DecidableEq, Repr

/-- GCC adapter `software_init_hook` (`rtos/mbed_boot.c`, lines 485-505). -/
def software_init_hook (featureUvisor uvisorSupported : Bool)
    (uvisorInitRet : Nat) : List BootEvent :=
  [BootEvent.set_stack_heap]
  ++ (if featureUvisor && uvisorSupported then [] else [BootEvent.cpy_nvic])
  ++ [BootEvent.sdk_init, BootEvent.osKernelInit]
  ++ (if featureUvisor then
        BootEvent.uvisor_lib_init ::
          (match uvisorInitRet with
           | 0 => [BootEvent.start_main]
           | _ + 1 => [BootEvent.mbed_die])
      else [BootEvent.start_main])

/-- ARMC adapter `__rt_entry` (`rtos/mbed_boot.c`, lines 404-414). -/
def __rt_entry (featureUvisor uvisorSupported : Bool) : List BootEvent :=
  [BootEvent.user_setup_stackheap, BootEvent.set_stack_heap]
  ++ (if featureUvisor && uvisorSupported then [] else [BootEvent.cpy_nvic])
  ++ [BootEvent.sdk_init, BootEvent.osKernelInit, BootEvent.start_main]

/-- MICROLIB adapter `_main_init` (`rtos/mbed_boot.c`, lines 344-354). -/
def _main_init (featureUvisor uvisorSupported : Bool) : List BootEvent :=
  [BootEvent.set_stack_heap]
  ++ (if featureUvisor && uvisorSupported then [] else [BootEvent.cpy_nvic])
  ++ [BootEvent.sdk_init, BootEvent.osKernelInit, BootEvent.start_main]

/-- IAR adapter `__iar_program_start` (`rtos/mbed_boot.c`, lines 773-799):
`mbed_cpy_nvic` and `mbed_sdk_init` run inside the
`low_level_init_needed_local` branch, before `mbed_set_stack_heap`. -/
def __iar_program_start (lowLevelInitNeeded featureUvisor uvisorSupported : Bool) :
    List BootEvent :=
  [BootEvent.iar_init_core, BootEvent.iar_init_vfp, BootEvent.low_level_init]
  ++ (if lowLevelInitNeeded then
        [BootEvent.iar_data_init3]
        ++ (if featureUvisor && uvisorSupported then [] else [BootEvent.cpy_nvic])
        ++ [BootEvent.sdk_init]
      else [])
  ++ [BootEvent.set_stack_heap, BootEvent.osKernelInit, BootEvent.start_main]

/-- Index of the first occurrence of an event in a trace. -/
def idxOfEvent (tr : List BootEvent) (e : BootEvent) : Option Nat :=
  match tr with
  | [] => none
  | x :: rest => if x == e then some 0 else (idxOfEvent rest e).map (· + 1)

/-- Step `a` comes before step `b` in the trace, vacuously true when either
is absent. -/
def orderedIn (tr : List BootEvent) (a b : BootEvent) : Bool :=
  match idxOfEvent tr a, idxOfEvent tr b with
  | some i, some j => decide (i < j)
  | _, _ => true

/-- Every step of `seq` that occurs in the trace occurs before every later
step of `seq` that occurs in the trace. -/
def seqRespected (tr : List BootEvent) : List BootEvent → Bool
  | [] => true
  | e :: rest => rest.all (fun f => orderedIn tr e f) && seqRespected tr rest

/-- The step order asserted by the spec for every adapter: memory layout
resolver, vector table relocator, SDK-init hook, kernel initialization,
`mbed_start_main`. -/
def claimedBootOrder (tr : List BootEvent) : Bool :=
  seqRespected tr [BootEvent.set_stack_heap, BootEvent.cpy_nvic,
    BootEvent.sdk_init, BootEvent.osKernelInit, BootEvent.start_main]

/-- C3 counterexample: in the IAR adapter with low-level init needed (and
uVisor off), `mbed_sdk_init` and `mbed_cpy_nvic` run before
`mbed_set_stack_heap`, so the claimed universal step order fails. -/
theorem iar_boot_order_counterexample :
    claimedBootOrder (__iar_program_start true false false) = false := by
  decide

/-- C3 amended: the GCC, ARMC and MICROLIB adapters perform the boot steps
in the claimed order (memory layout resolver, then vector table relocator
unless isolation owns it, then SDK-init hook, then kernel initialization,
then `mbed_start_main`) for every configuration; the IAR adapter instead
runs the vector table relocator and the SDK-init hook (only when low-level
init requests data initialization) before the memory layout resolver,
then kernel initialization, then `mbed_start_main`. -/
theorem boot_adapters_step_order (fu us lln : Bool) (ret : Nat) :
    claimedBootOrder (software_init_hook fu us ret) = true ∧
    claimedBootOrder (__rt_entry fu us) = true ∧
    claimedBootOrder (_main_init fu us) = true ∧
    seqRespected (__iar_program_start lln fu us)
      [BootEvent.cpy_nvic, BootEvent.sdk_init, BootEvent.set_stack_heap,
       BootEvent.osKernelInit, BootEvent.start_main] = true := by
  cases fu <;> cases us <;> cases lln <;> cases ret <;>
    first
    | decide
    | (simp only [software_init_hook]
       decide)

/-! ## Kernel Bootstrap: `mbed_start_main`

C source (`rtos/mbed_boot.c`, lines 311-325): fills `_main_thread_attr`
with the static 4K stack, control block, normal priority and the name
`"main_thread"`, calls `osThreadNew`, calls the fatal-error reporter
`error` (which never returns, per its contract) when the returned handle
is `NULL`, and otherwise calls `osKernelStart`. The result of the external
`osThreadNew` collaborator is a parameter (`none` models a `NULL` handle);
the trace records the calls made. -/

def MBED_CONF_APP_MAIN_STACK_SIZE : Nat := 4096

inductive MainEvent
  | threadNew (name : String) (stackSize : Nat)
  | errorCall (msg : String)
  | kernelStart
deriving DecidableEq, Repr

def mbed_start_main (threadNewResult : Option Nat) : List MainEvent :=
  MainEvent.threadNew "main_thread" MBED_CONF_APP_MAIN_STACK_SIZE ::
    (match threadNewResult with
     | none => [MainEvent.errorCall "Pre main thread not created"]
     | some _ => [MainEvent.kernelStart])

def countMainErrors (tr : List MainEvent) : Nat :=
  tr.countP (fun e => match e with | MainEvent.errorCall _ => true | _ => false)

def countKernelStart (tr : List MainEvent) : Nat :=
  tr.countP (fun e => match e with | MainEvent.kernelStart => true | _ => false)

/-- C4: when `osThreadNew` returns a null handle, `mbed_start_main` invokes
the fatal-error reporter exactly once, with the thread-creation failure
message, and never calls `osKernelStart`; when the handle is non-null, the
reporter is not invoked and `osKernelStart` is called exactly once. -/
theorem mbed_start_main_fatal_or_start (r : Option Nat) :
    countMainErrors (mbed_start_main r) = (if r.isSome then 0 else 1) ∧
    countKernelStart (mbed_start_main r) = (if r.isSome then 1 else 0) ∧
    (mbed_start_main none).contains
      (MainEvent.errorCall "Pre main thread not created") = true := by
  cases r <;> simp [mbed_start_main, countMainErrors, countKernelStart,
    List.countP, List.countP.go]

/-! ## Per-thread reentrant state: `__user_perthread_libspace`

C source (`rtos/mbed_boot.c`, lines 711-739):

```
struct _reent* __user_perthread_libspace(osThreadId_t id)
{
    uint32_t     n;
    if (!main_running) {
        return _global_impure_ptr;
    }
    if (id == (osThreadId_t)&_main_obj) {
        return _global_impure_ptr;
    }
    for (n = 0U; n < OS_THREAD_LIBSPACE_NUM; n++) {
        if (os_libspace_id[n] == NULL) {
            os_libspace_id[n] = id;
            os_libspace[n] = (struct _reent)_REENT_INIT(os_libspace[n]);
            return &os_libspace[n];
        }
        if (os_libspace_id[n] == id) {
            return &os_libspace[n];
        }
    }
    if (n == OS_THREAD_LIBSPACE_NUM) {
        osRtxErrorNotify(osRtxErrorClibSpace, id);
    }
    return _global_impure_ptr;
}
```

Thread identities (`osThreadId_t` pointers) are modelled as `Nat`; the
table entry `NULL` is `Option.none`; the returned `struct _reent *` is
either the static `_global_impure_ptr` or the address of a table slot;
`main_running` and the `os_libspace_id` table form the mutable state; the
call to `osRtxErrorNotify` is recorded in the result. The slot table has
`OS_THREAD_LIBSPACE_NUM` entries, modelled by the length of the list. -/

inductive ReentPtr
  | globalImpure
  | slot (n : Nat)
deriving DecidableEq, Repr

structure LibspaceState where
  main_running : Bool
  slots : List (Option Nat)
deriving DecidableEq, Repr

/-- One pass of the `for` loop: either finds the first `NULL` slot and
claims it for `id`, or finds the slot already holding `id`; returns the
slot index and the updated table, or `none` when the loop runs off the end
of the table. -/
def libspaceScan (id : Nat) : List (Option Nat) → Option (Nat × List (Option Nat))
  | [] => none
  | none :: rest => some (0, some id :: rest)
  | some t :: rest =>
    if t == id then some (0, some t :: rest)
    else
      match libspaceScan id rest with
      | none => none
      | some (k, rest2) => some (k + 1, some t :: rest2)

structure LibspaceResult where
  ret : ReentPtr
  state : LibspaceState
  errorNotified : Bool
deriving DecidableEq, Repr

def __user_perthread_libspace (mainObjId : Nat) (st : LibspaceState)
    (id : Nat) : LibspaceResult :=
  if !st.main_running then
    ⟨ReentPtr.globalImpure, st, false⟩
  else if id == mainObjId then
    ⟨ReentPtr.globalImpure, st, false⟩
  else
    match libspaceScan id st.slots with
    | some (n, slots2) => ⟨ReentPtr.slot n, { st with slots := slots2 }, false⟩
    | none => ⟨ReentPtr.globalImpure, st, true⟩

theorem libspaceScan_stable (id : Nat) :
    ∀ (slots slots2 : List (Option Nat)) (n : Nat),
      libspaceScan id slots = some (n, slots2) →
      libspaceScan id slots2 = some (n, slots2) := by
  intro slots
  induction slots with
  | nil => intro slots2 n h; simp [libspaceScan] at h
  | cons hd rest ih =>
    intro slots2 n h
    match hd with
    | none =>
      simp [libspaceScan] at h
      obtain ⟨hn, hs⟩ := h
      subst hn; subst hs
      simp [libspaceScan]
    | some t =>
      by_cases ht : t == id
      · simp [libspaceScan, ht] at h
        obtain ⟨hn, hs⟩ := h
        subst hn; subst hs
        simp [libspaceScan, ht]
      · simp only [libspaceScan, ht, if_neg, Bool.false_eq_true,
          not_false_iff, ite_false] at h
        match hrec : libspaceScan id rest with
        | none => rw [hrec] at h; simp at h
        | some (k, rest2) =>
          rw [hrec] at h
          simp at h
          obtain ⟨hn, hs⟩ := h
          subst hn; subst hs
          have ih2 := ih rest2 k hrec
          simp only [libspaceScan, ht, Bool.false_eq_true, not_false_iff,
            ite_false, ih2]

/-- C5: `__user_perthread_libspace` is stable: a second call with the same
thread identity returns the identical result on the identical state; before
the scheduler has started (`main_running` still 0) any identity maps to the
shared static `_global_impure_ptr` with the slot table untouched; and the
main thread's own identity always maps to `_global_impure_ptr` with the
slot table untouched. -/
theorem perthread_libspace_stable_and_main (mainObjId : Nat)
    (st : LibspaceState) (id : Nat) :
    __user_perthread_libspace mainObjId
        (__user_perthread_libspace mainObjId st id).state id
      = __user_perthread_libspace mainObjId st id ∧
    __user_perthread_libspace mainObjId ⟨false, st.slots⟩ id
      = ⟨ReentPtr.globalImpure, ⟨false, st.slots⟩, false⟩ ∧
    __user_perthread_libspace mainObjId st mainObjId
      = ⟨ReentPtr.globalImpure, st, false⟩ := by
  refine ⟨?_, ?_, ?_⟩
  · match hr : st.main_running with
    | false =>
      simp [__user_perthread_libspace, hr]
    | true =>
      by_cases hid : id == mainObjId
      · simp [__user_perthread_libspace, hr, hid]
      · match hscan : libspaceScan id st.slots with
        | some (n, slots2) =>
          have h2 := libspaceScan_stable id st.slots slots2 n hscan
          simp [__user_perthread_libspace, hr, hid, hscan, h2]
        | none =>
          simp [__user_perthread_libspace, hr, hid, hscan]
  · simp [__user_perthread_libspace]
  · match hr : st.main_running with
    | false => simp [__user_perthread_libspace, hr]
    | true => simp [__user_perthread_libspace, hr]

theorem libspaceScan_exhausted (id : Nat) :
    ∀ slots : List (Option Nat),
      slots.all (fun s => s != none && s != some id) = true →
      libspaceScan id slots = none := by
  intro slots
  induction slots with
  | nil => intro _; simp [libspaceScan]
  | cons hd rest ih =>
    intro h
    simp only [List.all_cons, Bool.and_eq_true] at h
    obtain ⟨hhd, hrest⟩ := h
    match hd with
    | none => simp at hhd
    | some t =>
      have ht : (t == id) = false := by
        simp only [bne, Bool.and_eq_true, Bool.not_eq_eq_eq_not,
          Bool.not_true] at hhd
        simpa using hhd.2
      simp only [libspaceScan, ht, Bool.false_eq_true, not_false_iff,
        ite_false]
      rw [ih hrest]

/-- C6: when the scheduler has started, the identity is not the main
thread's, and every slot of the table is already claimed by some other
identity, `__user_perthread_libspace` reports resource exhaustion through
`osRtxErrorNotify` and returns the shared static `_global_impure_ptr`,
leaving the slot table unchanged. -/
theorem perthread_libspace_exhaustion (mainObjId : Nat)
    (st : LibspaceState) (id : Nat)
    (hrun : st.main_running = true)
    (hmain : (id == mainObjId) = false)
    (hfull : st.slots.all (fun s => s != none && s != some id) = true) :
    __user_perthread_libspace mainObjId st id
      = ⟨ReentPtr.globalImpure, st, true⟩ := by
  have hscan := libspaceScan_exhausted id st.slots hfull
  simp [__user_perthread_libspace, hrun, hmain, hscan]

/-- Witness for C6: a full four-slot table, a fresh identity 7 and main
identity 99 yield the shared state, the error notification and an
unchanged table. -/
theorem perthread_libspace_exhaustion_witness :
    __user_perthread_libspace 99 ⟨true, [some 1, some 2, some 3, some 4]⟩ 7
      = ⟨ReentPtr.globalImpure, ⟨true, [some 1, some 2, some 3, some 4]⟩,
         true⟩ :=
  perthread_libspace_exhaustion 99 ⟨true, [some 1, some 2, some 3, some 4]⟩ 7
    rfl (by decide) (by decide)

/-! ## Slot table invariant (sequential execution)

In the C source the table `os_libspace_id` starts all-`NULL` and entries
are only ever written by the claim step of the scan, never cleared; so the
claimed slots form a contiguous prefix, every claimed identity occurs at
most once, and the main thread's identity (filtered out before the scan)
never enters the table. These three facts are the invariant of C7. -/

def slotsContain (slots : List (Option Nat)) (x : Option Nat) : Bool :=
  match slots with
  | [] => false
  | s :: rest => s == x || slotsContain rest x

/-- Claimed slots form a contiguous prefix: after the first free (`none`)
slot, every slot is free. -/
def contigClaimed : List (Option Nat) → Bool
  | [] => true
  | none :: rest => rest.all (fun s => s == none)
  | some _ :: rest => contigClaimed rest

/-- Every claimed identity occurs in at most one slot. -/
def noDupClaimed : List (Option Nat) → Bool
  | [] => true
  | none :: rest => noDupClaimed rest
  | some t :: rest => !(slotsContain rest (some t)) && noDupClaimed rest

/-- The C7 invariant on the slot table. -/
def slotsInv (mainObjId : Nat) (slots : List (Option Nat)) : Bool :=
  contigClaimed slots && noDupClaimed slots &&
    !(slotsContain slots (some mainObjId))

theorem allNone_contigClaimed :
    ∀ slots : List (Option Nat),
      slots.all (fun s => s == none) = true → contigClaimed slots = true := by
  intro slots
  induction slots with
  | nil => intro _; rfl
  | cons hd rest ih =>
    intro h
    simp only [List.all_cons, Bool.and_eq_true] at h
    obtain ⟨hhd, hrest⟩ := h
    match hd with
    | none => simpa [contigClaimed] using hrest
    | some t => simp at hhd

theorem allNone_noDupClaimed :
    ∀ slots : List (Option Nat),
      slots.all (fun s => s == none) = true → noDupClaimed slots = true := by
  intro slots
  induction slots with
  | nil => intro _; rfl
  | cons hd rest ih =>
    intro h
    simp only [List.all_cons, Bool.and_eq_true] at h
    obtain ⟨hhd, hrest⟩ := h
    match hd with
    | none => simpa [noDupClaimed] using ih hrest
    | some t => simp at hhd

theorem allNone_not_contains :
    ∀ (slots : List (Option Nat)) (x : Nat),
      slots.all (fun s => s == none) = true →
      slotsContain slots (some x) = false := by
  intro slots
  induction slots with
  | nil => intro x _; rfl
  | cons hd rest ih =>
    intro x h
    simp only [List.all_cons, Bool.and_eq_true] at h
    obtain ⟨hhd, hrest⟩ := h
    match hd with
    | none => simpa [slotsContain] using ih x hrest
    | some t => simp at hhd

/-- The scan only adds the queried identity to the table: membership of any
other claimed identity is unchanged. -/
theorem libspaceScan_contains (id u : Nat) (hu : (u == id) = false) :
    ∀ (slots slots2 : List (Option Nat)) (n : Nat),
      libspaceScan id slots = some (n, slots2) →
      slotsContain slots2 (some u) = slotsContain slots (some u) := by
  intro slots
  induction slots with
  | nil => intro slots2 n h; simp [libspaceScan] at h
  | cons hd rest ih =>
    intro slots2 n h
    match hd with
    | none =>
      simp [libspaceScan] at h
      obtain ⟨hn, hs⟩ := h
      subst hs
      have hid : (id == u) = false := by
        cases hbe : id == u
        · rfl
        · simp only [beq_iff_eq] at hbe
          subst hbe
          simp at hu
      simp [slotsContain, hid]
    | some t =>
      by_cases ht : t == id
      · simp [libspaceScan, ht] at h
        obtain ⟨hn, hs⟩ := h
        subst hs
        rfl
      · simp only [libspaceScan, ht, Bool.false_eq_true, not_false_iff,
          ite_false] at h
        match hrec : libspaceScan id rest with
        | none => rw [hrec] at h; simp at h
        | some (k, rest2) =>
          rw [hrec] at h
          simp at h
          obtain ⟨hn, hs⟩ := h
          subst hs
          have ih2 := ih rest2 k hrec
          simp [slotsContain, ih2]

/-- A successful scan preserves the slot-table invariant, provided the
queried identity is not the main thread's. -/
theorem libspaceScan_preserves_inv (mainObjId id : Nat)
    (hid : (id == mainObjId) = false) :
    ∀ (slots slots2 : List (Option Nat)) (n : Nat),
      slotsInv mainObjId slots = true →
      libspaceScan id slots = some (n, slots2) →
      slotsInv mainObjId slots2 = true := by
  intro slots
  induction slots with
  | nil => intro slots2 n _ h; simp [libspaceScan] at h
  | cons hd rest ih =>
    intro slots2 n hinv h
    match hd with
    | none =>
      simp [libspaceScan] at h
      obtain ⟨hn, hs⟩ := h
      subst hs
      simp only [slotsInv, contigClaimed, noDupClaimed, slotsContain,
        Bool.and_eq_true, Bool.not_eq_eq_eq_not, Bool.not_true,
        Bool.or_eq_false_iff] at hinv
      obtain ⟨⟨hcontig, hnodup⟩, hmain⟩ := hinv
      simp only [slotsInv, contigClaimed, noDupClaimed, slotsContain,
        Bool.and_eq_true, Bool.not_eq_eq_eq_not, Bool.not_true,
        Bool.or_eq_false_iff]
      refine ⟨⟨allNone_contigClaimed rest hcontig, ?_, ?_⟩, ?_, ?_⟩
      · simp [allNone_not_contains rest id hcontig]
      · exact allNone_noDupClaimed rest hcontig
      · simpa using hid
      · exact allNone_not_contains rest mainObjId hcontig
    | some t =>
      by_cases ht : t == id
      · simp [libspaceScan, ht] at h
        obtain ⟨hn, hs⟩ := h
        subst hs
        exact hinv
      · simp only [libspaceScan, ht, Bool.false_eq_true, not_false_iff,
          ite_false] at h
        match hrec : libspaceScan id rest with
        | none => rw [hrec] at h; simp at h
        | some (k, rest2) =>
          rw [hrec] at h
          simp at h
          obtain ⟨hn, hs⟩ := h
          subst hs
          simp only [slotsInv, contigClaimed, noDupClaimed, slotsContain,
            Bool.and_eq_true, Bool.not_eq_eq_eq_not, Bool.not_true,
            Bool.or_eq_false_iff] at hinv
          obtain ⟨⟨hcontig, hnotc, hnodup⟩, hmain1, hmain2⟩ := hinv
          have hrestinv : slotsInv mainObjId rest = true := by
            simp only [slotsInv, Bool.and_eq_true, Bool.not_eq_eq_eq_not,
              Bool.not_true]
            exact ⟨⟨hcontig, hnodup⟩, hmain2⟩
          have h2 := ih rest2 k hrestinv hrec
          simp only [slotsInv, Bool.and_eq_true, Bool.not_eq_eq_eq_not,
            Bool.not_true] at h2
          obtain ⟨⟨hcontig2, hnodup2⟩, hmain3⟩ := h2
          have htid : (t == id) = false := by
            cases hbe : t == id
            · rfl
            · exact absurd hbe ht
          have hcont : slotsContain rest2 (some t) = slotsContain rest (some t) :=
            libspaceScan_contains id t htid rest rest2 k hrec
          simp only [slotsInv, contigClaimed, noDupClaimed, slotsContain,
            Bool.and_eq_true, Bool.not_eq_eq_eq_not, Bool.not_true,
            Bool.or_eq_false_iff]
          refine ⟨⟨hcontig2, ?_, hnodup2⟩, ?_, hmain3⟩
          · rw [hcont]
            exact hnotc
          · exact hmain1

/-- C7: under sequential execution, every call to
`__user_perthread_libspace` preserves the slot-table invariant: claimed
slots form a contiguous prefix, at most one slot holds any given thread
identity, and the main thread's identity is never stored in the table. -/
theorem perthread_libspace_invariant (mainObjId : Nat)
    (st : LibspaceState) (id : Nat)
    (hinv : slotsInv mainObjId st.slots = true) :
    slotsInv mainObjId
      (__user_perthread_libspace mainObjId st id).state.slots = true := by
  match hr : st.main_running with
  | false => simpa [__user_perthread_libspace, hr] using hinv
  | true =>
    by_cases hid : id == mainObjId
    · simpa [__user_perthread_libspace, hr, hid] using hinv
    · have hid2 : (id == mainObjId) = false := by
        cases hbe : id == mainObjId
        · rfl
        · exact absurd hbe hid
      match hscan : libspaceScan id st.slots with
      | some (n, slots2) =>
        have h2 := libspaceScan_preserves_inv mainObjId id hid2
          st.slots slots2 n hinv hscan
        simpa [__user_perthread_libspace, hr, hid, hscan] using h2
      | none =>
        simpa [__user_perthread_libspace, hr, hid, hscan] using hinv

/-- Witness for C7: a table with one claimed slot followed by free slots
satisfies the invariant, and a call from a fresh identity keeps it. -/
theorem perthread_libspace_invariant_witness :
    slotsInv 9
      (__user_perthread_libspace 9 ⟨true, [some 1, none, none]⟩ 2).state.slots
      = true :=
  perthread_libspace_invariant 9 ⟨true, [some 1, none, none]⟩ 2 (by decide)

/-! ## Mutex creation attributes

Every `osMutexNew` call site in the source sets up an `osMutexAttr_t`
first; the embedding records the name and `attr_bits` of each site. The
CMSIS-RTOS2 attribute bit constants are `osMutexRecursive = 0x1`,
`osMutexPrioInherit = 0x2`, `osMutexRobust = 0x8`. -/

def osMutexRecursive : Nat := 1
def osMutexPrioInherit : Nat := 2
def osMutexRobust : Nat := 8

structure MutexAttr where
  name : String
  attr_bits : Nat
deriving DecidableEq, Repr

/-- Attribute setup shared by `pre_main` in all four toolchain sections:
`singleton_mutex_attr.attr_bits = osMutexRecursive | osMutexPrioInherit |
osMutexRobust`. -/
def singleton_mutex_attr : MutexAttr :=
  ⟨"singleton_mutex", osMutexRecursive ||| osMutexPrioInherit ||| osMutexRobust⟩

/-- GCC `init_lock_common` (`rtos/mbed_boot.c`, lines 507-514). -/
def init_lock_common (pName : String) (attributeBits : Nat) : MutexAttr :=
  ⟨pName, attributeBits⟩

/-- GCC `init_lock` (lines 516-519). -/
def init_lock (pName : String) : MutexAttr :=
  init_lock_common pName (osMutexPrioInherit ||| osMutexRobust)

/-- GCC `init_recursive_lock` (lines 521-524). -/
def init_recursive_lock (pName : String) : MutexAttr :=
  init_lock_common pName
    (osMutexRecursive ||| osMutexPrioInherit ||| osMutexRobust)

/-- Mutexes created by the GCC `pre_main` (lines 462-483): the singleton
mutex plus the seven static newlib lock handles. -/
def pre_main_gcc_mutexes : List MutexAttr :=
  [singleton_mutex_attr,
   init_recursive_lock "sinit_mutex",
   init_recursive_lock "sfp_mutex",
   init_recursive_lock "malloc_mutex",
   init_recursive_lock "env_mutex",
   init_lock "at_quick_exit_mutex",
   init_lock "tz_mutex",
   init_lock "arc4random_mutex"]

/-- Mutexes created by the ARMC `pre_main` (lines 383-394). -/
def pre_main_armc_mutexes : List MutexAttr := [singleton_mutex_attr]

/-- Mutexes created by the MICROLIB `pre_main` (lines 363-373). -/
def pre_main_microlib_mutexes : List MutexAttr := [singleton_mutex_attr]

/-- Mutexes created by the IAR `pre_main` (lines 757-770). -/
def pre_main_iar_mutexes : List MutexAttr := [singleton_mutex_attr]

/-- Attribute setup of IAR `__iar_system_Mtxinit` (lines 808-826). -/
def iar_system_mutex_attr : MutexAttr :=
  ⟨"system_mutex", osMutexRecursive ||| osMutexPrioInherit ||| osMutexRobust⟩

/-- Attribute setup of IAR `__iar_file_Mtxinit` (lines 844-861). -/
def iar_file_mutex_attr : MutexAttr :=
  ⟨"file_mutex", osMutexRecursive ||| osMutexPrioInherit ||| osMutexRobust⟩

/-- Every mutex-creation site in `rtos/mbed_boot.c`: the four `pre_main`
variants, the two dynamic newlib lock initializers, and the two IAR
system/file lock initializers. -/
def allCreatedMutexAttrs : List MutexAttr :=
  pre_main_gcc_mutexes ++ pre_main_armc_mutexes ++ pre_main_microlib_mutexes
    ++ pre_main_iar_mutexes
    ++ [init_lock "newlib_dynamic_mutex",
        init_recursive_lock "newlib_dynamic_recursive_mutex",
        iar_system_mutex_attr, iar_file_mutex_attr]

/-- C8: every kernel mutex created by this layer carries attribute bits
that include both the robust flag and the priority-inheritance flag. -/
theorem all_mutexes_robust_prio_inherit :
    allCreatedMutexAttrs.all
      (fun m => (m.attr_bits &&& osMutexRobust == osMutexRobust) &&
        (m.attr_bits &&& osMutexPrioInherit == osMutexPrioInherit)) = true := by
  decide

/-! ## Dynamic newlib locks: `__retarget_lock_init` and friends

C source (`rtos/mbed_boot.c`, lines 526-562). The result of `malloc` is a
parameter (`none` models a `NULL` return); the trace records the calls the
function makes, in program order. The fatal-error reporter `error` does
not return, so nothing follows it in a trace. -/

inductive LockEvent
  | mallocCall
  | mutexNew (attr : MutexAttr)
  | errorCall (msg : String)
deriving DecidableEq, Repr

def __retarget_lock_init (mallocResult : Option Nat) : List LockEvent :=
  LockEvent.mallocCall ::
    (match mallocResult with
     | some _ => [LockEvent.mutexNew (init_lock "newlib_dynamic_mutex")]
     | none => [LockEvent.errorCall "newlib mutex init is out of memory\r\n"])

def __retarget_lock_init_recursive (mallocResult : Option Nat) : List LockEvent :=
  LockEvent.mallocCall ::
    (match mallocResult with
     | some _ =>
       [LockEvent.mutexNew (init_recursive_lock "newlib_dynamic_recursive_mutex")]
     | none => [LockEvent.errorCall "newlib mutex init is out of memory\r\n"])

def countMutexNew (tr : List LockEvent) : Nat :=
  tr.countP (fun e => match e with | LockEvent.mutexNew _ => true | _ => false)

def countLockErrors (tr : List LockEvent) : Nat :=
  tr.countP (fun e => match e with | LockEvent.errorCall _ => true | _ => false)

/-- C9: both dynamic lock initializers first allocate backing storage with
`malloc`; on success they initialize exactly one kernel mutex and report no
error, and on allocation failure they invoke the fatal-error reporter
exactly once and initialize no mutex. -/
theorem retarget_lock_init_alloc_behavior (r : Option Nat) :
    (__retarget_lock_init r).head? = some LockEvent.mallocCall ∧
    countMutexNew (__retarget_lock_init r) = (if r.isSome then 1 else 0) ∧
    countLockErrors (__retarget_lock_init r) = (if r.isSome then 0 else 1) ∧
    (__retarget_lock_init_recursive r).head? = some LockEvent.mallocCall ∧
    countMutexNew (__retarget_lock_init_recursive r)
      = (if r.isSome then 1 else 0) ∧
    countLockErrors (__retarget_lock_init_recursive r)
      = (if r.isSome then 0 else 1) := by
  cases r <;> simp [__retarget_lock_init, __retarget_lock_init_recursive,
    countMutexNew, countLockErrors, List.countP, List.countP.go]

/-! ## Dynamic newlib lock teardown: `__retarget_lock_close`

C source (`rtos/mbed_boot.c`, lines 548-562): both close functions guard
on the lock pointer being non-`NULL`, then delete the kernel mutex and
free the heap storage, in that order. The lock pointer is an
`Option Nat`. -/

inductive CloseEvent
  | mutexDelete
  | freeCall
deriving DecidableEq, Repr

def __retarget_lock_close (lock : Option Nat) : List CloseEvent :=
  match lock with
  | none => []
  | some _ => [CloseEvent.mutexDelete, CloseEvent.freeCall]

def __retarget_lock_close_recursive (lock : Option Nat) : List CloseEvent :=
  match lock with
  | none => []
  | some _ => [CloseEvent.mutexDelete, CloseEvent.freeCall]

/-- C10: closing a null lock is a no-op (no mutex deleted, nothing freed);
closing a non-null lock deletes the kernel mutex and then frees the heap
storage, in that order, for both close functions. -/
theorem retarget_lock_close_behavior (v : Nat) :
    __retarget_lock_close none = [] ∧
    __retarget_lock_close_recursive none = [] ∧
    __retarget_lock_close (some v)
      = [CloseEvent.mutexDelete, CloseEvent.freeCall] ∧
    __retarget_lock_close_recursive (some v)
      = [CloseEvent.mutexDelete, CloseEvent.freeCall] :=
  ⟨rfl, rfl, rfl, rfl⟩
